import Mathlib

/-!
Shallow embedding of `better_exception_ptr.h` (namespace `stdx`): a typed
error-dispatch library over `std::exception_ptr`.  C++ types that drive the
template machinery (`ArgumentImpl`, `try_catch`, `common_type`) are modelled
by the inductive `CppTy`; runtime payloads are identified by a type token and
an address.  The ABI primitives `detail::try_catch`, `detail::type`,
`detail::get_raw_ptr` and the runtime primitives `std::current_exception` /
`std::rethrow_exception` live in `abi_details.h` / the hosting runtime and are
modelled from the spec (sections 4.1, 4.2, 6).
-/

namespace BEP

/-- Model of the C++ types that appear in handler signatures and payloads:
`void`, class/scalar types (named), pointers, lvalue/rvalue references,
const qualification, and the `detail::catch_all_tag` sentinel
(`better_exception_ptr.h` line 11). -/
inductive CppTy where
  | void
  | cls (name : String)
  | ptr (t : CppTy)
  | lref (t : CppTy)
  | rref (t : CppTy)
  | const (t : CppTy)
  | catchAllTag
deriving DecidableEq, Repr

/-- `std::is_reference_v`. -/
def isReference : CppTy → Bool
  | .lref _ => true
  | .rref _ => true
  | _ => false

/-- `std::is_pointer_v`. -/
def isPointer : CppTy → Bool
  | .ptr _ => true
  | _ => false

/-- `std::remove_reference_t`. -/
def removeReference : CppTy → CppTy
  | .lref t => t
  | .rref t => t
  | t => t

/-- Removal of top-level cv-qualification (`std::remove_cv_t`); volatile is
not modelled separately. -/
def removeTopCv : CppTy → CppTy
  | .const t => removeTopCv t
  | t => t

/-- `std::add_pointer_t`: pointer to the referred-to type. -/
def addPointer (t : CppTy) : CppTy := .ptr (removeReference t)

/-- The type-identity token `typeid(T)` yields for a type `T`: references and
top-level cv-qualification are erased (C++ `typeid` semantics). -/
def typeidOf (t : CppTy) : CppTy := removeTopCv (removeReference t)

/-- `std::decay_t` restricted to this universe (no arrays or function types):
strip references, then top-level cv. -/
def decayTy (t : CppTy) : CppTy := removeTopCv (removeReference t)

/-- Environment fixing the ambient C++ program: which class derives from
which (used by the runtime's type-identity matching) and which class
implicitly converts to which (used by `std::common_type`).  Both lists are
read as already containing every derived/convertible pair. -/
structure TypeEnv where
  derives : List (String × String)
  convertsTo : List (String × String)

/-- Modelled from the spec (section 3, "Type Identity Token"): equality of two
tokens is the matching criterion, extended by the runtime's own notion of
compatibility, e.g. derived-to-base.  Used by the ABI-level
`detail::try_catch` from `abi_details.h`, which is not part of `src/`. -/
def typeIdMatch (env : TypeEnv) (payload target : CppTy) : Bool :=
  payload == target ||
    (match payload, target with
     | .cls d, .cls b => env.derives.contains (d, b)
     | _, _ => false)

/-- An exception payload held by a handle: its dynamic type token and the
address of its storage.  The address stands for the untyped pointer
`detail::get_raw_ptr` returns; views into the payload are this address, so the
payload is never copied. -/
structure ExceptionPtr where
  payloadTy : CppTy
  addr : Nat
deriving DecidableEq, Repr

/-- Modelled from the spec (section 6, primitive (4)): `detail::try_catch`
from `abi_details.h` — given a handle and a target type-identity token,
returns the untyped payload pointer when the payload's token matches the
target token, and an empty result otherwise. -/
def detailTryCatch (env : TypeEnv) (ep : ExceptionPtr) (targetTid : CppTy) : Option Nat :=
  if typeIdMatch env ep.payloadTy targetTid then some ep.addr else none

/-- Modelled from the spec (section 4.1): `detail::type` from `abi_details.h`,
the payload's type-identity token (`exception_ptr::type`, lines 138-140). -/
def typeOf (ep : ExceptionPtr) : CppTy := ep.payloadTy

/-- Modelled from the spec (section 4.1): `detail::get_raw_ptr` from
`abi_details.h` (`exception_ptr::get_raw_ptr`, lines 142-144). -/
def get_raw_ptr (ep : ExceptionPtr) : Nat := ep.addr

/-- The `static_assert(std::is_reference_v<T> || std::is_pointer_v<T>)` at
line 113: `try_catch<T>` instantiates only for reference or pointer `T`. -/
def try_catchInstantiates (t : CppTy) : Bool := isReference t || isPointer t

/-- The shape of the view `try_catch<T>` returns (lines 108-111):
`std::optional<T>` when `T` is a pointer type, the nullable pointer
`std::add_pointer_t<T>` otherwise. -/
inductive ViewShape where
  | optionalOf (t : CppTy)
  | pointerTo (t : CppTy)
deriving DecidableEq, Repr

/-- The `std::conditional_t<is_pointer_v<T>, optional<T>, add_pointer_t<T>>`
return type of `try_catch<T>` (lines 108-111). -/
def try_catchViewShape (t : CppTy) : ViewShape :=
  if isPointer t then .optionalOf t else .pointerTo (addPointer t)

/-- `exception_ptr::try_catch<T>` (lines 107-124): query the ABI with
`&typeid(T)`; on a match, cast the raw pointer to the view type (the address
is unchanged); otherwise return the empty view. -/
def try_catch (env : TypeEnv) (ep : ExceptionPtr) (t : CppTy) : Option Nat :=
  match detailTryCatch env ep (typeidOf t) with
  | some raw => some raw
  | none => none

/-- The shape of a handler's declared parameter list, the input to
`detail::ArgumentImpl` (lines 13-38): exactly one parameter, zero
parameters, or a variadic `...` parameter. -/
inductive HandlerShape where
  | unary (param : CppTy)
  | nullary
  | variadic
deriving DecidableEq, Repr

/-- A handler: its parameter shape, its declared return type
(`detail::ReturnOf`, lines 43-50) and its runtime behaviour, a function from
the view it is invoked with (the payload address) to the value it returns
(meaningless when the return type is void). -/
structure Handler where
  shape : HandlerShape
  retTy : CppTy
  fn : Nat → Int

/-- `detail::ArgumentOf` (lines 13-41): a unary callable yields its parameter
type unmodified (lines 25-28), a variadic callable yields `catch_all_tag`
(lines 30-33), a nullary callable yields `void` (lines 35-38). -/
def ArgumentOf : HandlerShape → CppTy
  | .unary p => p
  | .nullary => .void
  | .variadic => .catchAllTag

/-- `detail::ReturnOf` (lines 43-50). -/
def ReturnOf (h : Handler) : CppTy := h.retTy

/-- `std::common_type_t<A, B>`: decay both; equal decayed types unify to
that type; `void` unifies only with `void`; two distinct class types unify
when one implicitly converts to the other (per the environment); everything
else has no common type. -/
def commonType2 (env : TypeEnv) (a b : CppTy) : Option CppTy :=
  if decayTy a == decayTy b then some (decayTy a)
  else
    match decayTy a, decayTy b with
    | .void, _ => none
    | _, .void => none
    | .cls x, .cls y =>
      if env.convertsTo.contains (x, y) then some (.cls y)
      else if env.convertsTo.contains (y, x) then some (.cls x)
      else none
    | _, _ => none

/-- `std::common_type_t<ReturnOf<Handler>, ReturnOf<Rest>...>` (lines 69-70):
left fold of pairwise `common_type`; a single type decays.  The
zero-handler overload (lines 62-64) is not a template and computes no common
type, so the empty list yields `none`. -/
def chainCommonType (env : TypeEnv) : List Handler → Option CppTy
  | [] => none
  | h :: rest =>
    rest.foldl (fun acc g => acc.bind (fun a => commonType2 env a (ReturnOf g)))
      (some (decayTy (ReturnOf h)))

/-- Whether the variadic `handle` template (lines 66-90) instantiates for a
handler pack: each level needs its `CommonType` default argument to exist
(lines 69-71), its head's deduced argument to differ from `catch_all_tag`
(line 75), and `try_catch<Argument>` to pass its static assert (line 113);
the recursive call at line 89 instantiates the tail unconditionally. -/
def handleInstantiates (env : TypeEnv) : List Handler → Bool
  | [] => true
  | h :: rest =>
    (chainCommonType env (h :: rest)).isSome &&
    (ArgumentOf h.shape != .catchAllTag) &&
    try_catchInstantiates (ArgumentOf h.shape) &&
    handleInstantiates env rest

/-- The runtime result type of `handle` (lines 62-64 and 72): `bool` for the
zero-handler overload and for a chain whose common type is `void`,
`std::optional<CommonType>` otherwise. -/
inductive ResultShape where
  | boolShape
  | optionalShape (t : CppTy)
deriving DecidableEq, Repr

/-- The declared result type of a `handle` call (lines 62-64, 72). -/
def handleResultShape (env : TypeEnv) (hs : List Handler) : Option ResultShape :=
  match hs with
  | [] => some .boolShape
  | _ =>
    (chainCommonType env hs).map
      (fun c => if c == .void then .boolShape else .optionalShape c)

/-- The recursion of `handle` (lines 73-90), instrumented with the indices of
the handlers invoked: try `try_catch<ArgumentOf(head)>`; on a view, invoke
the head with it once and stop; otherwise recurse on the tail.  Returns the
invoked indices (offset by `i`) and the invoked handler's value. -/
def dispatchCore (env : TypeEnv) (ep : ExceptionPtr) :
    List Handler → Nat → List Nat × Option Int
  | [], _ => ([], none)
  | h :: rest, i =>
    match try_catch env ep (ArgumentOf h.shape) with
    | some view => ([i], some (h.fn view))
    | none => dispatchCore env ep rest (i + 1)

/-- The indices (into the handler list, from 0) of the handlers a `handle`
call invokes. -/
def invokedHandlers (env : TypeEnv) (ep : ExceptionPtr) (hs : List Handler) : List Nat :=
  (dispatchCore env ep hs 0).1

/-- A `handle` call's runtime value: a `bool` presence signal for a void
chain, an `std::optional` value for a value chain. -/
inductive HValue where
  | signal (fired : Bool)
  | value (v : Option Int)
deriving DecidableEq, Repr

/-- `exception_ptr::handle` (lines 62-90): the zero-handler overload returns
`false` (lines 62-64); a void chain signals whether some handler fired
(lines 78-80, 86-87); a value chain returns the invoked handler's value or
the empty optional (lines 81-83, 86-87). -/
def handle (env : TypeEnv) (ep : ExceptionPtr) (hs : List Handler) : HValue :=
  match hs with
  | [] => .signal false
  | _ =>
    let r := (dispatchCore env ep hs 0).2
    if chainCommonType env hs == some .void then .signal r.isSome else .value r

/-- The first handler (with its index) whose declared match type yields a
view from `try_catch` — the handler `handle` selects. -/
def firstMatch (env : TypeEnv) (ep : ExceptionPtr) : List Handler → Option (Nat × Handler)
  | [] => none
  | h :: rest =>
    if (try_catch env ep (ArgumentOf h.shape)).isSome then some (0, h)
    else
      match firstMatch env ep rest with
      | some (k, g) => some (k + 1, g)
      | none => none

/-- Outcome of a `handle_or_terminate` call: either the call returned
normally after invoking the matched handler (only void chains instantiate —
see `handle_or_terminateInstantiates` — so there is no value to carry), or
it re-raised the held payload (line 128) and called `std::terminate`
(line 130), never returning. -/
inductive EscalateOutcome where
  | returned
  | terminated (reraised : ExceptionPtr)
deriving DecidableEq, Repr

/-- The recursion of the variadic `handle_or_terminate` (lines 96-105),
instrumented with the indices of the handlers invoked: invoke the first
handler whose `try_catch` yields a view (line 101-102) and return;
otherwise recurse, falling through on exhaustion to the zero-argument
overload (line 104), which re-raises and terminates (lines 92-94,
126-132). -/
def handle_or_terminateCore (env : TypeEnv) (ep : ExceptionPtr) :
    List Handler → Nat → List Nat × EscalateOutcome
  | [], _ => ([], .terminated ep)
  | h :: rest, i =>
    match try_catch env ep (ArgumentOf h.shape) with
    | some _ => ([i], .returned)
    | none => handle_or_terminateCore env ep rest (i + 1)

/-- `exception_ptr::handle_or_terminate` (lines 92-105): zero handlers always
escalate; otherwise the first match returns normally and exhaustion
escalates. -/
def handle_or_terminate (env : TypeEnv) (ep : ExceptionPtr)
    (hs : List Handler) : EscalateOutcome :=
  (handle_or_terminateCore env ep hs 0).2

/-- The declared return type of `handle_or_terminate` (lines 92, 96-97): the
zero-argument overload is a `[[noreturn]] void` function; the variadic
overload declares the bare common type — no `std::optional` or `bool`
wrapper.  Note that by line 104 only instantiations whose common type is
void are well-formed (`handle_or_terminateInstantiates`). -/
def handle_or_terminateResultShape (env : TypeEnv) (hs : List Handler) : Option CppTy :=
  match hs with
  | [] => some .void
  | _ => chainCommonType env hs

/-- Whether the variadic `handle_or_terminate` (lines 96-105) instantiates:
the common return type must exist (line 97) and the argument-deduction
asserts must pass (lines 100, 113), as for `handle`; in addition, the
unguarded `return handle_or_terminate(rest...)` at line 104 calls the
`[[noreturn]] void` zero-argument overload once the pack is exhausted, and
a `return` with a void operand is well-formed only in a function whose own
return type is void — so the innermost (singleton) instantiation requires
its common type to be void, which forces the whole chain's common type to
be void. -/
def handle_or_terminateInstantiates (env : TypeEnv) : List Handler → Bool
  | [] => true
  | h :: rest =>
    (chainCommonType env (h :: rest)).isSome &&
    (ArgumentOf h.shape != .catchAllTag) &&
    try_catchInstantiates (ArgumentOf h.shape) &&
    (!rest.isEmpty || (chainCommonType env [h] == some .void)) &&
    handle_or_terminateInstantiates env rest

/-- Modelled from the spec (section 6): the hosting runtime's
raised-error state — the currently active raised error, if any. -/
structure RuntimeState where
  active : Option ExceptionPtr
deriving DecidableEq, Repr

/-- Modelled from the spec (sections 4.1, 6 primitive (2)):
`std::rethrow_exception` re-enters the raised-error state with the handle's
payload, preserving its concrete type. -/
def rethrow_exception (p : ExceptionPtr) (_s : RuntimeState) : RuntimeState :=
  { active := some p }

/-- Modelled from the spec (sections 4.1, 6 primitive (1)):
`std::current_exception` snapshots the currently active raised error
(`stdx::current_exception`, lines 146-151). -/
def current_exception (s : RuntimeState) : Option ExceptionPtr := s.active

/-! ### Structural lemmas -/

theorem try_catch_eq (env : TypeEnv) (ep : ExceptionPtr) (t : CppTy) :
    try_catch env ep t =
      if typeIdMatch env ep.payloadTy (typeidOf t) then some ep.addr else none := by
  by_cases hm : typeIdMatch env ep.payloadTy (typeidOf t) = true
  · simp [try_catch, detailTryCatch, hm]
  · simp [try_catch, detailTryCatch, hm]

theorem try_catch_addr (env : TypeEnv) (ep : ExceptionPtr) (t : CppTy) (v : Nat)
    (h : try_catch env ep t = some v) : v = ep.addr := by
  rw [try_catch_eq] at h
  split at h
  · exact (Option.some.injEq _ _ ▸ h).symm
  · exact absurd h (by simp)

theorem try_catch_isSome (env : TypeEnv) (ep : ExceptionPtr) (t : CppTy) :
    (try_catch env ep t).isSome = typeIdMatch env ep.payloadTy (typeidOf t) := by
  rw [try_catch_eq]
  split <;> simp_all

theorem dispatchCore_eq_firstMatch (env : TypeEnv) (ep : ExceptionPtr)
    (hs : List Handler) (i : Nat) :
    dispatchCore env ep hs i =
      match firstMatch env ep hs with
      | some (k, h) => ([i + k], some (h.fn ep.addr))
      | none => ([], none) := by
  induction hs generalizing i with
  | nil => rfl
  | cons h rest ih =>
    simp only [dispatchCore, firstMatch]
    cases hm : try_catch env ep (ArgumentOf h.shape) with
    | some v =>
      have hv : v = ep.addr := try_catch_addr env ep _ v hm
      simp [hm, hv]
    | none =>
      simp only [hm, Option.isSome_none, Bool.false_eq_true, if_false]
      rw [ih (i + 1)]
      cases hfm : firstMatch env ep rest with
      | none => rfl
      | some kg =>
        obtain ⟨k, g⟩ := kg
        show ([i + 1 + k], some (g.fn ep.addr)) = ([i + (k + 1)], some (g.fn ep.addr))
        have hik : i + 1 + k = i + (k + 1) := by omega
        rw [hik]

theorem handle_or_terminateCore_eq_firstMatch (env : TypeEnv) (ep : ExceptionPtr)
    (hs : List Handler) (i : Nat) :
    handle_or_terminateCore env ep hs i =
      match firstMatch env ep hs with
      | some (k, _) => ([i + k], .returned)
      | none => ([], .terminated ep) := by
  induction hs generalizing i with
  | nil => rfl
  | cons h rest ih =>
    simp only [handle_or_terminateCore, firstMatch]
    cases hm : try_catch env ep (ArgumentOf h.shape) with
    | some v => simp [hm]
    | none =>
      simp only [hm, Option.isSome_none, Bool.false_eq_true, if_false]
      rw [ih (i + 1)]
      cases hfm : firstMatch env ep rest with
      | none => rfl
      | some kg =>
        obtain ⟨k, g⟩ := kg
        show ([i + 1 + k], EscalateOutcome.returned) = ([i + (k + 1)], EscalateOutcome.returned)
        have hik : i + 1 + k = i + (k + 1) := by omega
        rw [hik]

theorem firstMatch_get (env : TypeEnv) (ep : ExceptionPtr) (hs : List Handler)
    (k : Nat) (h : Handler) (hfm : firstMatch env ep hs = some (k, h)) :
    hs.get? k = some h := by
  induction hs generalizing k with
  | nil => simp [firstMatch] at hfm
  | cons h0 rest ih =>
    simp only [firstMatch] at hfm
    split at hfm
    · cases hfm
      rfl
    · cases hrest : firstMatch env ep rest with
      | none =>
        rw [hrest] at hfm
        exact Option.noConfusion hfm
      | some kg =>
        obtain ⟨k0, g⟩ := kg
        rw [hrest] at hfm
        have hfm' : some (k0 + 1, g) = some (k, h) := hfm
        injection hfm' with hpair
        have hk0 : k0 + 1 = k := congrArg Prod.fst hpair
        have hg : g = h := congrArg Prod.snd hpair
        subst hg
        subst hk0
        exact ih k0 hrest

theorem firstMatch_of_first (env : TypeEnv) (ep : ExceptionPtr) (hs : List Handler)
    (k : Nat) (h : Handler)
    (hk : hs.get? k = some h)
    (hmatch : (try_catch env ep (ArgumentOf h.shape)).isSome = true)
    (hbefore : ∀ j, j < k → ∀ g, hs.get? j = some g →
      try_catch env ep (ArgumentOf g.shape) = none) :
    firstMatch env ep hs = some (k, h) := by
  induction hs generalizing k with
  | nil => simp at hk
  | cons h0 rest ih =>
    cases k with
    | zero =>
      simp only [List.get?] at hk
      cases hk
      simp [firstMatch, hmatch]
    | succ k' =>
      have h0none : try_catch env ep (ArgumentOf h0.shape) = none :=
        hbefore 0 (Nat.succ_pos _) h0 rfl
      simp only [firstMatch, h0none, Option.isSome_none, Bool.false_eq_true, if_false]
      have hrec : firstMatch env ep rest = some (k', h) := by
        refine ih k' hk ?_
        intro j hj g hg
        exact hbefore (j + 1) (by omega) g hg
      rw [hrec]

theorem firstMatch_none_of_no_match (env : TypeEnv) (ep : ExceptionPtr)
    (hs : List Handler)
    (hnone : ∀ g ∈ hs, try_catch env ep (ArgumentOf g.shape) = none) :
    firstMatch env ep hs = none := by
  induction hs with
  | nil => rfl
  | cons h rest ih =>
    have hh : try_catch env ep (ArgumentOf h.shape) = none :=
      hnone h (List.mem_cons_self _ _)
    simp only [firstMatch, hh, Option.isSome_none, Bool.false_eq_true, if_false]
    rw [ih (fun g hg => hnone g (List.mem_cons_of_mem _ hg))]

theorem commonType2_void_left (env : TypeEnv) (a b c : CppTy)
    (h : commonType2 env a b = some c) (ha : decayTy a = .void) : c = .void := by
  unfold commonType2 at h
  rw [ha] at h
  split at h
  · cases h
    rfl
  · cases hdb : decayTy b <;> rw [hdb] at h <;> exact Option.noConfusion h

theorem commonType2_void_right (env : TypeEnv) (a b c : CppTy)
    (h : commonType2 env a b = some c) (hb : decayTy b = .void) : c = .void := by
  unfold commonType2 at h
  rw [hb] at h
  split at h
  · rename_i hcond
    have hda : decayTy a = CppTy.void := by simpa using hcond
    cases h
    exact hda
  · cases hda : decayTy a <;> rw [hda] at h <;> exact Option.noConfusion h

theorem chainFold_none (env : TypeEnv) (ts : List Handler) :
    ts.foldl (fun acc g => acc.bind (fun a => commonType2 env a (ReturnOf g))) none
      = none := by
  induction ts with
  | nil => rfl
  | cons g ts ih => simpa using ih

theorem chainFold_void_start (env : TypeEnv) (ts : List Handler) (c : CppTy)
    (h : ts.foldl (fun acc g => acc.bind (fun a => commonType2 env a (ReturnOf g)))
      (some .void) = some c) : c = .void := by
  induction ts with
  | nil =>
    cases h
    rfl
  | cons g ts ih =>
    rw [List.foldl_cons] at h
    cases hcg : (some CppTy.void).bind (fun a => commonType2 env a (ReturnOf g)) with
    | none =>
      rw [hcg, chainFold_none] at h
      exact Option.noConfusion h
    | some d =>
      have hd : d = CppTy.void := by
        have : commonType2 env CppTy.void (ReturnOf g) = some d := hcg
        exact commonType2_void_left env _ _ _ this rfl
      rw [hcg, hd] at h
      exact ih h

theorem chainFold_void_mem (env : TypeEnv) (ts : List Handler) (a c : CppTy)
    (g : Handler) (hmem : g ∈ ts) (hvoid : decayTy (ReturnOf g) = .void)
    (h : ts.foldl (fun acc g => acc.bind (fun a => commonType2 env a (ReturnOf g)))
      (some a) = some c) : c = .void := by
  induction ts generalizing a with
  | nil => simp at hmem
  | cons g0 ts ih =>
    rw [List.foldl_cons] at h
    cases hc0 : (some a).bind (fun x => commonType2 env x (ReturnOf g0)) with
    | none =>
      rw [hc0, chainFold_none] at h
      exact Option.noConfusion h
    | some b =>
      rw [hc0] at h
      rcases List.mem_cons.mp hmem with hg | hg
      · have hb : b = CppTy.void := by
          have hcb : commonType2 env a (ReturnOf g0) = some b := hc0
          exact commonType2_void_right env _ _ _ hcb (hg ▸ hvoid)
        rw [hb] at h
        exact chainFold_void_start env ts c h
      · exact ih b hg h

theorem chainCommonType_void_of_mem (env : TypeEnv) (hs : List Handler)
    (h : Handler) (c : CppTy) (hmem : h ∈ hs)
    (hvoid : decayTy (ReturnOf h) = .void)
    (hc : chainCommonType env hs = some c) : c = .void := by
  cases hs with
  | nil => simp at hmem
  | cons h0 rest =>
    simp only [chainCommonType] at hc
    rcases List.mem_cons.mp hmem with hg | hg
    · have hv0 : decayTy (ReturnOf h0) = CppTy.void := by
        rw [← hg]
        exact hvoid
      rw [hv0] at hc
      exact chainFold_void_start env rest c hc
    · exact chainFold_void_mem env rest _ c h hg hvoid hc

/-! ### Concrete fixtures (the spec's testable-properties scenarios) -/

/-- An ambient program with no class hierarchy and no implicit
conversions. -/
def demoEnv : TypeEnv := ⟨[], []⟩

/-- A handle holding a `NetworkTimeout` payload at address 7. -/
def demoEp : ExceptionPtr := ⟨.cls "NetworkTimeout", 7⟩

/-- A handle holding an `InvalidInput` payload, matched by none of the demo
handlers. -/
def badEp : ExceptionPtr := ⟨.cls "InvalidInput", 9⟩

/-- `h(DiskFull) -> 1`: a handler taking `DiskFull&` and returning int 1. -/
def hDiskFull : Handler := ⟨.unary (.lref (.cls "DiskFull")), .cls "int", fun _ => 1⟩

/-- `h(NetworkTimeout) -> 2`. -/
def hNetworkTimeout : Handler := ⟨.unary (.lref (.cls "NetworkTimeout")), .cls "int", fun _ => 2⟩

/-- `h(OutOfMemory) -> 3`. -/
def hOutOfMemory : Handler := ⟨.unary (.lref (.cls "OutOfMemory")), .cls "int", fun _ => 3⟩

/-- The spec's concrete handler list. -/
def demoHandlers : List Handler := [hDiskFull, hNetworkTimeout, hOutOfMemory]

/-! ### Claims -/

/-- C1: For every handle whose payload has type X and every handler list in
which the handler at position k is the first whose declared match type
matches X, dispatch (`exception_ptr::handle`) invokes exactly that handler,
exactly once, and invokes no other handler; for a value chain it returns
that handler's value wrapped in the optional. -/
theorem C1_dispatch_first_match_wins (env : TypeEnv) (ep : ExceptionPtr)
    (hs : List Handler) (k : Nat) (h : Handler)
    (hk : hs.get? k = some h)
    (hmatch : (try_catch env ep (ArgumentOf h.shape)).isSome = true)
    (hbefore : ∀ j, j < k → ∀ g, hs.get? j = some g →
      try_catch env ep (ArgumentOf g.shape) = none) :
    invokedHandlers env ep hs = [k] ∧
    (dispatchCore env ep hs 0).2 = some (h.fn ep.addr) ∧
    (chainCommonType env hs ≠ some .void →
      handle env ep hs = .value (some (h.fn ep.addr))) := by
  have hfm := firstMatch_of_first env ep hs k h hk hmatch hbefore
  have hd := dispatchCore_eq_firstMatch env ep hs 0
  rw [hfm] at hd
  refine ⟨?_, ?_, ?_⟩
  · unfold invokedHandlers
    rw [hd]
    simp
  · rw [hd]
  · intro hnv
    cases hs with
    | nil => simp at hk
    | cons h0 rest =>
      have hcond : (chainCommonType env (h0 :: rest) == some CppTy.void) = false := by
        simpa using hnv
      simp only [handle, hcond, Bool.false_eq_true, if_false]
      rw [hd]

/-- C1 witness: the spec's concrete scenario — `NetworkTimeout` payload, the
matching handler at position 1 (0-based), result the wrapped value 2. -/
theorem C1_witness :
    demoHandlers.get? 1 = some hNetworkTimeout ∧
    (try_catch demoEnv demoEp (ArgumentOf hNetworkTimeout.shape)).isSome = true ∧
    invokedHandlers demoEnv demoEp demoHandlers = [1] ∧
    handle demoEnv demoEp demoHandlers = .value (some 2) := by
  have hbefore : ∀ j, j < 1 → ∀ g, demoHandlers.get? j = some g →
      try_catch demoEnv demoEp (ArgumentOf g.shape) = none := by
    intro j hj g hg
    have hj0 : j = 0 := by omega
    subst hj0
    have hg' : some hDiskFull = some g := hg
    injection hg' with h1
    subst h1
    rfl
  have hmain := C1_dispatch_first_match_wins demoEnv demoEp demoHandlers 1
      hNetworkTimeout rfl rfl hbefore
  exact ⟨rfl, rfl, hmain.1, hmain.2.2 (by decide)⟩

/-- C2: For every handle, if the handler list is empty, or no handler's
declared match type matches the payload's type, dispatch returns the
empty/negative result (`false` for a void chain, the empty optional for a
value chain) and invokes zero handlers; the empty-list overload returns
`false` without inspecting the handle at all (it is the same for every
handle). -/
theorem C2_no_match_empty_result (env : TypeEnv) (ep : ExceptionPtr)
    (hs : List Handler)
    (hnone : ∀ g ∈ hs, try_catch env ep (ArgumentOf g.shape) = none) :
    invokedHandlers env ep hs = [] ∧
    handle env ep hs =
      (if hs.isEmpty || (chainCommonType env hs == some .void)
        then HValue.signal false else HValue.value none) ∧
    (∀ env' (ep' : ExceptionPtr), handle env' ep' [] = .signal false) := by
  have hfm := firstMatch_none_of_no_match env ep hs hnone
  have hd := dispatchCore_eq_firstMatch env ep hs 0
  rw [hfm] at hd
  refine ⟨?_, ?_, fun env' ep' => rfl⟩
  · unfold invokedHandlers
    rw [hd]
  · cases hs with
    | nil => rfl
    | cons h0 rest =>
      simp only [handle, List.isEmpty_cons, Bool.false_or]
      rw [hd]
      cases hb : (chainCommonType env (h0 :: rest) == some CppTy.void) <;> simp [hb]

/-- C2 witness: the spec's mismatch scenario — `InvalidInput` payload against
the demo handler list gives the empty optional with zero handlers invoked. -/
theorem C2_witness :
    (∀ g ∈ demoHandlers, try_catch demoEnv badEp (ArgumentOf g.shape) = none) ∧
    invokedHandlers demoEnv badEp demoHandlers = [] ∧
    handle demoEnv badEp demoHandlers = .value none := by
  have hnone : ∀ g ∈ demoHandlers, try_catch demoEnv badEp (ArgumentOf g.shape) = none := by
    intro g hg
    fin_cases hg <;> rfl
  have hmain := C2_no_match_empty_result demoEnv badEp demoHandlers hnone
  refine ⟨hnone, hmain.1, ?_⟩
  have h2 := hmain.2.1
  have hcond : (demoHandlers.isEmpty ||
      (chainCommonType demoEnv demoHandlers == some CppTy.void)) = false := by decide
  rw [hcond] at h2
  exact h2

/-- `log(DiskFull) -> void`: a void-returning handler. -/
def vLog : Handler := ⟨.unary (.lref (.cls "DiskFull")), .void, fun _ => 0⟩

/-- `retry(NetworkTimeout) -> void`: a void-returning handler. -/
def vRetry : Handler := ⟨.unary (.lref (.cls "NetworkTimeout")), .void, fun _ => 0⟩

/-- A chain of two void-returning handlers. -/
def voidHandlers : List Handler := [vLog, vRetry]

/-- C3: The chain's result type is computed by common-type unification over
all handlers' return types; for a chain that instantiates, if any handler's
return type is void then the whole chain's common type is void, the result
type degenerates to `bool`, and on a match dispatch returns `true` rather
than a wrapped value. -/
theorem C3_void_return_degenerates (env : TypeEnv) (ep : ExceptionPtr)
    (hs : List Handler) (h : Handler)
    (hsome : (chainCommonType env hs).isSome = true)
    (hmem : h ∈ hs) (hvoid : ReturnOf h = .void) :
    chainCommonType env hs = some .void ∧
    handleResultShape env hs = some .boolShape ∧
    (∀ k g, firstMatch env ep hs = some (k, g) → handle env ep hs = .signal true) := by
  obtain ⟨c, hc⟩ := Option.isSome_iff_exists.mp hsome
  have hcv : c = CppTy.void := by
    refine chainCommonType_void_of_mem env hs h c hmem ?_ hc
    rw [hvoid]
    rfl
  subst hcv
  refine ⟨hc, ?_, ?_⟩
  · cases hs with
    | nil => simp [chainCommonType] at hc
    | cons h0 rest => simp [handleResultShape, hc]
  · intro k g hfm
    cases hs with
    | nil => simp at hmem
    | cons h0 rest =>
      have hd := dispatchCore_eq_firstMatch env ep (h0 :: rest) 0
      rw [hfm] at hd
      simp only [handle]
      rw [hc, hd]
      simp

/-- C3 witness: a two-handler void chain instantiates, degenerates to the
`bool` result, and signals `true` on the matched `NetworkTimeout` payload. -/
theorem C3_witness :
    (chainCommonType demoEnv voidHandlers).isSome = true ∧
    vRetry ∈ voidHandlers ∧ ReturnOf vRetry = .void ∧
    chainCommonType demoEnv voidHandlers = some .void ∧
    handleResultShape demoEnv voidHandlers = some .boolShape ∧
    handle demoEnv demoEp voidHandlers = .signal true := by
  have hmem : vRetry ∈ voidHandlers :=
    List.mem_cons_of_mem _ (List.mem_cons_self _ _)
  have hmain := C3_void_return_degenerates demoEnv demoEp voidHandlers vRetry rfl hmem rfl
  exact ⟨rfl, hmem, rfl, hmain.1, hmain.2.1, hmain.2.2 1 vRetry rfl⟩

/-- C4: For every chain for which `handle_or_terminate` instantiates (only
void chains do, by line 104), it performs the identical matching algorithm
to `handle` — it invokes exactly the same handlers (the same first match, or
none); when no handler matches it re-raises the held error and terminates,
never returning normally on the no-match path; and the zero-argument form
always escalates unconditionally. -/
theorem C4_escalate_on_exhaustion (env : TypeEnv) (ep : ExceptionPtr)
    (hs : List Handler)
    (hinst : handle_or_terminateInstantiates env hs = true) :
    (handle_or_terminateCore env ep hs 0).1 = invokedHandlers env ep hs ∧
    (∀ k h, firstMatch env ep hs = some (k, h) →
      handle_or_terminate env ep hs = .returned) ∧
    (firstMatch env ep hs = none →
      handle_or_terminate env ep hs = .terminated ep ∧
      handle_or_terminate env ep hs ≠ .returned) ∧
    handle_or_terminate env ep [] = .terminated ep := by
  have he := handle_or_terminateCore_eq_firstMatch env ep hs 0
  have hd := dispatchCore_eq_firstMatch env ep hs 0
  refine ⟨?_, ?_, ?_, rfl⟩
  · unfold invokedHandlers
    rw [he, hd]
    cases hfm : firstMatch env ep hs with
    | none => rfl
    | some kg => rfl
  · intro k h hfm
    unfold handle_or_terminate
    rw [he, hfm]
  · intro hfm
    unfold handle_or_terminate
    rw [he, hfm]
    exact ⟨rfl, fun hv => EscalateOutcome.noConfusion hv⟩

/-- C4 witness: the two-handler void chain instantiates; on the mismatched
`InvalidInput` payload it invokes no handler and escalates (re-raise then
terminate), and the zero-argument form escalates too. -/
theorem C4_witness :
    handle_or_terminateInstantiates demoEnv voidHandlers = true ∧
    firstMatch demoEnv badEp voidHandlers = none ∧
    (handle_or_terminateCore demoEnv badEp voidHandlers 0).1 =
      invokedHandlers demoEnv badEp voidHandlers ∧
    handle_or_terminate demoEnv badEp voidHandlers = .terminated badEp ∧
    handle_or_terminate demoEnv badEp [] = .terminated badEp := by
  have hmain := C4_escalate_on_exhaustion demoEnv badEp voidHandlers (by decide)
  exact ⟨by decide, rfl, hmain.1, (hmain.2.2.1 rfl).1, hmain.2.2.2⟩

/-- C5: the code contradicts the spec here (a code bug).  The unguarded
`return handle_or_terminate(rest...)` at line 104 ends up returning the
`[[noreturn]] void` zero-argument overload, so the variadic
`handle_or_terminate` fails to instantiate for every chain whose unified
common return type is a non-void value type — exactly the chains the claim
covers: the int-returning singleton and demo chains are rejected at compile
time, while a void chain instantiates. -/
theorem C5_nonvoid_chain_rejected :
    chainCommonType demoEnv [hNetworkTimeout] = some (.cls "int") ∧
    handle_or_terminateInstantiates demoEnv [hNetworkTimeout] = false ∧
    chainCommonType demoEnv demoHandlers = some (.cls "int") ∧
    handle_or_terminateInstantiates demoEnv demoHandlers = false ∧
    handle_or_terminateInstantiates demoEnv voidHandlers = true :=
  ⟨rfl, rfl, rfl, rfl, rfl⟩

/-- A handler declaring its single parameter by value: `[](X x) -> int`. -/
def byValueHandler : Handler := ⟨.unary (.cls "X"), .cls "int", fun _ => 0⟩

/-- C6 counterexample: a handler whose single parameter is declared by value
is rejected at compile time — `handle` does not instantiate for it, because
`try_catch`'s `static_assert(is_reference_v || is_pointer_v)` (line 113)
fails and no reference/pointer stripping is ever performed on the deduced
parameter type.  This refutes "dispatch accepts all three shapes". -/
theorem C6_counterexample_by_value_rejected :
    handleInstantiates demoEnv [byValueHandler] = false ∧
    ArgumentOf byValueHandler.shape = .cls "X" ∧
    try_catchInstantiates (ArgumentOf byValueHandler.shape) = false :=
  ⟨rfl, rfl, rfl⟩

/-- C6 amended: a handler may declare its single parameter by reference or by
pointer, and dispatch accepts exactly those two shapes; the deduced parameter
type is the declared parameter type unmodified (no stripping), and `handle`
instantiates for the handler precisely when that type is a reference or a
pointer (given the chain's common type and the rest of the chain). -/
theorem C6_amended_handler_shapes (env : TypeEnv) (h : Handler)
    (rest : List Handler) (p : CppTy)
    (hshape : h.shape = .unary p) (hnotca : p ≠ .catchAllTag) :
    ArgumentOf h.shape = p ∧
    handleInstantiates env (h :: rest) =
      ((chainCommonType env (h :: rest)).isSome &&
        ((isReference p || isPointer p) && handleInstantiates env rest)) := by
  have ha : ArgumentOf h.shape = p := by
    rw [hshape]
    rfl
  refine ⟨ha, ?_⟩
  have hne : (p != CppTy.catchAllTag) = true := by simpa using hnotca
  simp only [handleInstantiates, ha, hne, try_catchInstantiates, Bool.true_and,
    Bool.and_true, Bool.and_assoc]

/-- C6 witness: a by-reference handler (with a trivially unifiable singleton
chain) is accepted: `handle` instantiates for it. -/
theorem C6_witness :
    hNetworkTimeout.shape = .unary (.lref (.cls "NetworkTimeout")) ∧
    (CppTy.lref (.cls "NetworkTimeout")) ≠ .catchAllTag ∧
    ArgumentOf hNetworkTimeout.shape = .lref (.cls "NetworkTimeout") ∧
    handleInstantiates demoEnv [hNetworkTimeout] = true := by
  have hmain := C6_amended_handler_shapes demoEnv hNetworkTimeout []
      (.lref (.cls "NetworkTimeout")) rfl (by decide)
  refine ⟨rfl, by decide, hmain.1, ?_⟩
  rw [hmain.2]
  decide

/-- C7: `try_catch<T>` yields a view exactly when the payload's type-identity
token matches `typeid(T)`'s token (per the runtime's matching, including
derived-to-base as recorded in the environment); the view is the payload's
address (never a copy); and the view's shape is `std::optional<T>` for
pointer `T` and the nullable pointer `add_pointer_t<T>` for reference `T`. -/
theorem C7_try_catch_typed_view (env : TypeEnv) (ep : ExceptionPtr) (t : CppTy)
    (hinst : try_catchInstantiates t = true) :
    ((try_catch env ep t).isSome = typeIdMatch env ep.payloadTy (typeidOf t)) ∧
    (∀ v, try_catch env ep t = some v → v = get_raw_ptr ep) ∧
    (isPointer t = true → try_catchViewShape t = .optionalOf t) ∧
    (isReference t = true → try_catchViewShape t = .pointerTo (addPointer t)) := by
  refine ⟨try_catch_isSome env ep t, fun v hv => try_catch_addr env ep t v hv, ?_, ?_⟩
  · intro hp
    simp [try_catchViewShape, hp]
  · intro hr
    have hp : isPointer t = false := by
      cases t <;> simp_all [isReference, isPointer]
    simp [try_catchViewShape, hp]

/-- C7 witness: `try_catch<NetworkTimeout&>` on the `NetworkTimeout` payload
yields the payload's address; its view shape is a nullable
`NetworkTimeout*`. -/
theorem C7_witness :
    try_catchInstantiates (CppTy.lref (.cls "NetworkTimeout")) = true ∧
    (try_catch demoEnv demoEp (.lref (.cls "NetworkTimeout"))).isSome =
      typeIdMatch demoEnv demoEp.payloadTy (typeidOf (.lref (.cls "NetworkTimeout"))) ∧
    try_catchViewShape (CppTy.lref (.cls "NetworkTimeout")) =
      .pointerTo (.ptr (.cls "NetworkTimeout")) := by
  have hmain := C7_try_catch_typed_view demoEnv demoEp
      (.lref (.cls "NetworkTimeout")) rfl
  exact ⟨rfl, hmain.1, hmain.2.2.2 rfl⟩

theorem handleInstantiates_mem (env : TypeEnv) (hs : List Handler)
    (hinst : handleInstantiates env hs = true) (g : Handler) (hmem : g ∈ hs) :
    (ArgumentOf g.shape != .catchAllTag) = true ∧
    try_catchInstantiates (ArgumentOf g.shape) = true := by
  induction hs with
  | nil => simp at hmem
  | cons h0 rest ih =>
    simp only [handleInstantiates, Bool.and_eq_true] at hinst
    rcases List.mem_cons.mp hmem with hg | hg
    · subst hg
      exact ⟨hinst.1.1.2, hinst.1.2⟩
    · exact ih hinst.2 hg

/-- C8: Passing a handler whose deduced parameter type is the catch-all
sentinel (a variadic callable), or a handler declaring zero parameters,
makes `handle` fail to instantiate — a compile-time rejection; and at
runtime, in any chain that does instantiate, every invoked handler is a
unary handler with a reference or pointer parameter, so no unsupported
handler is ever invoked. -/
theorem C8_unsupported_shapes_static (env : TypeEnv) (hs : List Handler)
    (h : Handler) (hmem : h ∈ hs)
    (hbad : h.shape = .variadic ∨ h.shape = .nullary) :
    handleInstantiates env hs = false ∧
    (∀ (ep : ExceptionPtr) (hs' : List Handler),
      handleInstantiates env hs' = true →
      ∀ i ∈ invokedHandlers env ep hs',
        ∃ g p, hs'.get? i = some g ∧ g.shape = .unary p ∧
          (isReference p || isPointer p) = true) := by
  constructor
  · cases hb : handleInstantiates env hs with
    | false => rfl
    | true =>
      exfalso
      obtain ⟨hne, hti⟩ := handleInstantiates_mem env hs hb h hmem
      rcases hbad with hv | hn
      · rw [hv] at hne
        simp [ArgumentOf] at hne
      · rw [hn] at hti
        simp [ArgumentOf, try_catchInstantiates, isReference, isPointer] at hti
  · intro ep hs' hinst i hi
    unfold invokedHandlers at hi
    rw [dispatchCore_eq_firstMatch] at hi
    cases hfm : firstMatch env ep hs' with
    | none =>
      rw [hfm] at hi
      simp at hi
    | some kg =>
      obtain ⟨k, g⟩ := kg
      rw [hfm] at hi
      have hik : i = k := by simpa using hi
      rw [hik]
      have hget := firstMatch_get env ep hs' k g hfm
      have hmem' : g ∈ hs' := List.get?_mem hget
      obtain ⟨hne, hti⟩ := handleInstantiates_mem env hs' hinst g hmem'
      cases hg : g.shape with
      | unary p =>
        refine ⟨g, p, hget, hg, ?_⟩
        rw [hg] at hti
        exact hti
      | nullary =>
        rw [hg] at hti
        simp [ArgumentOf, try_catchInstantiates, isReference, isPointer] at hti
      | variadic =>
        rw [hg] at hne
        simp [ArgumentOf] at hne

/-- A catch-all handler: `[](...) -> int`. -/
def catchAllHandler : Handler := ⟨.variadic, .cls "int", fun _ => 0⟩

/-- C8 witness: the catch-all handler makes the chain fail to instantiate. -/
theorem C8_witness :
    catchAllHandler ∈ [catchAllHandler] ∧
    catchAllHandler.shape = .variadic ∧
    handleInstantiates demoEnv [catchAllHandler] = false := by
  have hmem : catchAllHandler ∈ [catchAllHandler] := List.mem_cons_self _ _
  have hmain := C8_unsupported_shapes_static demoEnv [catchAllHandler]
      catchAllHandler hmem (Or.inl rfl)
  exact ⟨hmem, rfl, hmain.1⟩

/-- C9: For every (non-empty) handle, re-raising it with
`std::rethrow_exception` and then capturing the active error again with
`current_exception` yields a handle whose type-identity token and payload
equal the original handle's. -/
theorem C9_reraise_roundtrip (p : ExceptionPtr) (s : RuntimeState) :
    ∃ q, current_exception (rethrow_exception p s) = some q ∧
      typeOf q = typeOf p ∧ get_raw_ptr q = get_raw_ptr p :=
  ⟨p, rfl, rfl, rfl⟩

/-- C10: Matching is keyed solely on `typeid(T)`, which erases references and
top-level cv-qualification: any two target types with the same identity token
succeed or fail together; in particular lvalue/rvalue references to the same
underlying type, a reference to a const-qualified type versus the unqualified
one, and a top-level-const pointer versus the plain pointer, are
interchangeable for `try_catch`. -/
theorem C10_match_cv_ref_insensitive (env : TypeEnv) (ep : ExceptionPtr) :
    (∀ t₁ t₂ : CppTy, typeidOf t₁ = typeidOf t₂ →
      (try_catch env ep t₁).isSome = (try_catch env ep t₂).isSome) ∧
    (∀ u : CppTy,
      (try_catch env ep (.lref u)).isSome = (try_catch env ep (.rref u)).isSome) ∧
    (∀ u : CppTy,
      (try_catch env ep (.lref (.const u))).isSome = (try_catch env ep (.lref u)).isSome) ∧
    (∀ u : CppTy,
      (try_catch env ep (.const (.ptr u))).isSome = (try_catch env ep (.ptr u)).isSome) := by
  have hkey : ∀ t₁ t₂ : CppTy, typeidOf t₁ = typeidOf t₂ →
      (try_catch env ep t₁).isSome = (try_catch env ep t₂).isSome := by
    intro t₁ t₂ ht
    rw [try_catch_isSome, try_catch_isSome, ht]
  refine ⟨hkey, fun u => hkey _ _ rfl, fun u => hkey _ _ ?_, fun u => hkey _ _ ?_⟩
  · show removeTopCv (.const u) = removeTopCv u
    rfl
  · show removeTopCv (.const (.ptr u)) = removeTopCv (.ptr u)
    rfl

/-- C10 witness: `typeid` makes `NetworkTimeout&`, `NetworkTimeout&&`,
`const NetworkTimeout&` and `NetworkTimeout*` vs `NetworkTimeout* const`
behave pairwise identically on the demo payload. -/
theorem C10_witness :
    typeidOf (CppTy.lref (.cls "NetworkTimeout")) =
      typeidOf (CppTy.rref (.cls "NetworkTimeout")) ∧
    (try_catch demoEnv demoEp (.lref (.cls "NetworkTimeout"))).isSome =
      (try_catch demoEnv demoEp (.rref (.cls "NetworkTimeout"))).isSome ∧
    (try_catch demoEnv demoEp (.lref (.const (.cls "NetworkTimeout")))).isSome =
      (try_catch demoEnv demoEp (.lref (.cls "NetworkTimeout"))).isSome ∧
    (try_catch demoEnv demoEp (.const (.ptr (.cls "NetworkTimeout")))).isSome =
      (try_catch demoEnv demoEp (.ptr (.cls "NetworkTimeout"))).isSome := by
  have hmain := C10_match_cv_ref_insensitive demoEnv demoEp
  exact ⟨rfl, hmain.1 _ _ rfl, hmain.2.2.1 _, hmain.2.2.2 _⟩

end BEP
